import Mathlib

/-!
Verification development for the `coingekco` dashboard (`src/pyst4h.py`).

The script fetches cryptocurrency market data from a paginated REST API,
normalizes it into a tabular dataset, caches it, and renders it as a styled
table with CSV export.  The embedding below translates each function of the
source into Lean, modelling Python floats as exact rationals (`ℚ`) plus an
explicit NaN marker, pandas DataFrames as a column-name list together with
aligned rows of cells, and the unbounded retry loop as a fuel-indexed runner.

All arithmetic inside string formatting is done on `Rat.num`/`Rat.den`
directly with natural-number operations, so that every definition evaluates
by kernel reduction on concrete inputs.
-/

namespace Coingekco

/-! ## Cell values

A cell of the DataFrame: a float (exact rational), the float NaN, a string,
a parsed date (`pd.Timestamp`, date part only), or pandas' missing-date
marker NaT. -/

inductive Value where
  | num (q : ℚ)
  | nan
  | strv (s : String)
  | dateV (y m d : ℕ)
  | natV
deriving DecidableEq, Repr

/-! ## Digit-level string helpers

These model the behaviour of Python's `'{:,.Nf}'.format` (fixed-point with
thousands separators) and of `float` → `str` conversion, on the exact
rational carried by a `Value.num`. -/

/-- The character for a single decimal digit. -/
def digitChar (n : ℕ) : Char := Char.ofNat (48 + n)

/-- Decimal digits of a natural number, most significant first
(fuel-indexed so that it evaluates by kernel reduction). -/
def natDigitsAux : ℕ → ℕ → List Char
  | 0, _ => []
  | fuel+1, n => if n < 10 then [digitChar n] else natDigitsAux fuel (n / 10) ++ [digitChar (n % 10)]

/-- Decimal string of a natural number. -/
def natStr (n : ℕ) : String := String.mk (natDigitsAux (n + 1) n)

/-- Group a reversed digit list into blocks of three (least-significant block
first), for thousands separators. -/
def groupThreesAux : ℕ → List Char → List (List Char)
  | 0, _ => []
  | _, [] => []
  | fuel+1, a :: rest => (a :: rest.take 2) :: groupThreesAux fuel (rest.drop 2)

/-- Insert `,` thousands separators into a digit string, as Python's `,`
format flag does. -/
def addCommas (s : String) : String :=
  String.mk (List.intercalate [','] (((groupThreesAux s.data.length s.data.reverse).map
    List.reverse).reverse))

/-- Left-pad a string with `0` to the given length. -/
def padZeros (n : ℕ) (s : String) : String :=
  String.mk (List.replicate (n - s.length) '0') ++ s

/-- Round `num / den` (a non-negative fraction) to the nearest integer, ties
to even — the rounding used by Python's fixed-point float formatting.
(Python rounds the binary value of the float; on the exact rationals of this
model, ties fall on different inputs, but no claim in this development
touches a tie.) -/
def roundHalfEven (num den : ℕ) : ℕ :=
  let f := num / den
  let rem2 := 2 * (num - f * den)
  if rem2 < den then f
  else if den < rem2 then f + 1
  else if f % 2 = 0 then f else f + 1

/-- Fixed-point formatting of a rational with `decs` decimal places and
thousands separators: the body of Python's `'{:,.Nf}'.format(val)` for a
(non-NaN) float `val`. -/
def commaFmtQ (decs : ℕ) (q : ℚ) : String :=
  let neg : Bool := decide (q < 0)
  let scaled := roundHalfEven (q.num.natAbs * 10 ^ decs) q.den
  let ip := scaled / 10 ^ decs
  let fp := scaled % 10 ^ decs
  (if neg then "-" else "") ++ addCommas (natStr ip)
    ++ (if decs = 0 then "" else "." ++ padZeros decs (natStr fp))

/-- Python's `'{:,.Nf}'.format` applied to a cell: formats a float, and
renders the float NaN as `"nan"` (CPython renders `format(float('nan'),
',.2f')` as `"nan"`).  The columns this is applied to hold only floats. -/
def commaFmt (decs : ℕ) : Value → String
  | .num q => commaFmtQ decs q
  | _ => "nan"

/-! ## The magnitude-dependent price formatter (`price_format`, lines 83-97)

The Python literals `0.1`, `0.01`, ... denote the exact decimal fractions
below; `val > t` on floats is false whenever `val` is NaN (IEEE-754), which
the `fgt` helper captures by returning `false` on every non-`num` cell. -/

/-- The float comparison `val > t` of the source: true only when `val` is an
actual number exceeding `t`; false for NaN (and any non-float cell). -/
def fgt (v : Value) (t : ℚ) : Bool :=
  match v with
  | .num q => decide (t < q)
  | _ => false

/-- Decimal-place selection of `price_format`: the chain of
`if val > 0.1 ... elif ... else` tests of lines 84-96, most significant
first. -/
def price_decimals (val : Value) : ℕ :=
  if fgt val (mkRat 1 10) then 2
  else if fgt val (mkRat 1 100) then 4
  else if fgt val (mkRat 1 10000) then 6
  else if fgt val (mkRat 1 1000000) then 8
  else if fgt val (mkRat 1 100000000) then 10
  else if fgt val (mkRat 1 10000000000) then 12
  else 15

/-- `price_format(val)` (lines 83-97): magnitude-dependent fixed-point
formatting with thousands separators. -/
def price_format (val : Value) : String :=
  if fgt val (mkRat 1 10) then commaFmt 2 val
  else if fgt val (mkRat 1 100) then commaFmt 4 val
  else if fgt val (mkRat 1 10000) then commaFmt 6 val
  else if fgt val (mkRat 1 1000000) then commaFmt 8 val
  else if fgt val (mkRat 1 100000000) then commaFmt 10 val
  else if fgt val (mkRat 1 10000000000) then commaFmt 12 val
  else commaFmt 15 val

/-- The precision table exactly as the spec states it (section 4.5), written
lowest-magnitude row first so every boundary value lands in the
higher-precision row, as the spec's half-open intervals demand. -/
def spec_price_decimals (q : ℚ) : ℕ :=
  if q ≤ 1/10000000000 then 15
  else if q ≤ 1/100000000 then 12
  else if q ≤ 1/1000000 then 10
  else if q ≤ 1/10000 then 8
  else if q ≤ 1/100 then 6
  else if q ≤ 1/10 then 4
  else 2

/-! ## The retrying fetcher (`fetch_data_continuously`, lines 10-20)

The source loops forever: each attempt either yields an HTTP response with a
status code and parsed JSON body, or raises `requests.RequestException`.  On
status 200 the body is returned; otherwise a warning is emitted and the loop
sleeps 10 seconds before the next attempt.  The environment is modelled as a
stream `attempts : ℕ → Attempt` of outcomes, and the unbounded `while True`
as a fuel-indexed runner that returns `none` when the fuel runs out before
any attempt succeeds. -/

/-- One attempt of `requests.get`: a response (status code plus parsed JSON
body, here the page's record list or `null`), or a raised
`RequestException` (timeout, DNS failure, refused connection). -/
inductive Attempt (α : Type) where
  | resp (status : ℕ) (body : α)
  | exn
deriving DecidableEq, Repr

/-- The warning the loop emits on a failed attempt: `st.warning` with the
status code (line 17) or the connection-issue message (line 19). -/
inductive Warn where
  | apiError (status : ℕ)
  | connIssue
deriving DecidableEq, Repr

/-- Does this attempt succeed (HTTP status 200)? -/
def isOk {α : Type} : Attempt α → Bool
  | .resp s _ => s == 200
  | .exn => false

/-- The parsed body of an attempt (meaningful only for responses). -/
def bodyOf {α : Type} [Inhabited α] : Attempt α → α
  | .resp _ b => b
  | .exn => default

/-- The warning a failed attempt produces. -/
def warnOf {α : Type} : Attempt α → Warn
  | .resp s _ => .apiError s
  | .exn => .connIssue

/-- Run the retry loop of lines 11-20 for at most `fuel` attempts starting at
attempt index `i`.  Returns the first 200-response's body together with the
warnings emitted before it and the total seconds slept (`time.sleep(10)` per
failed attempt), or `none` when no attempt within the fuel succeeds. -/
def fetchRun {α : Type} [Inhabited α] (attempts : ℕ → Attempt α) :
    ℕ → ℕ → Option (α × List Warn × ℕ)
  | 0, _ => none
  | fuel+1, i =>
    match attempts i with
    | .resp s b =>
      if s = 200 then some (b, [], 0)
      else (fetchRun attempts fuel (i+1)).map fun r => (r.1, .apiError s :: r.2.1, r.2.2 + 10)
    | .exn =>
      (fetchRun attempts fuel (i+1)).map fun r => (r.1, .connIssue :: r.2.1, r.2.2 + 10)

/-- `fetch_data_continuously(url, params)` under an environment `attempts`:
the fuel-indexed unfolding of the `while True` loop from attempt 0. -/
def fetch_data_continuously {α : Type} [Inhabited α] (attempts : ℕ → Attempt α) (fuel : ℕ) :
    Option (α × List Warn × ℕ) :=
  fetchRun attempts fuel 0

/-- The warnings emitted for the first `k` attempts of a stream. -/
def warnPre {α : Type} (attempts : ℕ → Attempt α) (k : ℕ) : List Warn :=
  (List.range k).map fun j => warnOf (attempts j)

/-- A concrete fetcher environment used to witness C3: the first two
attempts fail (one connection error, one HTTP 500), the third returns
status 200. -/
def attemptsW : ℕ → Attempt ℕ :=
  fun i => if i = 0 then .exn else if i = 1 then .resp 500 7 else .resp 200 42

/-! ## Records and DataFrames

One upstream market object (spec §3 MarketRecord).  The embedding carries
the fields the claims touch; the remaining numeric fields of the upstream
schema are handled by the pipeline identically to `market_cap` and
`price_change_percentage_24h`. -/

structure MarketRecord where
  symbol : String
  current_price : Value
  market_cap : Value
  total_volume : Value
  price_change_percentage_24h : Value
  ath_date : String
  atl_date : String
deriving DecidableEq, Repr

/-- A pandas DataFrame: ordered column names plus rows of cells aligned with
them.  `pd.DataFrame(list_of_dicts)` on a non-empty list of records with the
keys above yields exactly these columns; on the empty list it yields a frame
with NO columns, which is what makes `df['symbol']` raise `KeyError`. -/
structure DF where
  cols : List String
  rows : List (List Value)
deriving DecidableEq, Repr

/-- Column order of the upstream record as a DataFrame. -/
def rawCols : List String :=
  ["symbol", "current_price", "market_cap", "total_volume",
   "price_change_percentage_24h", "ath_date", "atl_date"]

/-- The row of cells a record contributes, aligned with `rawCols`. -/
def MarketRecord.toRow (r : MarketRecord) : List Value :=
  [.strv r.symbol, r.current_price, r.market_cap, r.total_volume,
   r.price_change_percentage_24h, .strv r.ath_date, .strv r.atl_date]

/-- Look up a row's cell by column name (used by column selection; the
sidebar multiselect of line 73 only offers names present in the frame, so
the `Value.nan` default is never reached by the script). -/
def DF.cell (df : DF) (row : List Value) (c : String) : Value :=
  match df.cols.findIdx? (fun x => x = c) with
  | some i => row.getD i .nan
  | none => .nan

/-- `df[selected_columns]` (line 102): restrict to the selected columns, in
selection order. -/
def DF.select (df : DF) (sel : List String) : DF :=
  ⟨sel, df.rows.map fun row => sel.map fun c => df.cell row c⟩

/-- Overwrite one column cell-wise (`df.loc[:, c] = f(df[c])` /
`df[c] = f(df[c])`); a no-op when the column is absent. -/
def DF.mapCol (df : DF) (c : String) (f : Value → Value) : DF :=
  match df.cols.findIdx? (fun x => x = c) with
  | some i => ⟨df.cols, df.rows.map fun row => row.set i (f (row.getD i .nan))⟩
  | none => df

/-- Python's `str.upper` on a string: uppercase each character.  (The
symbols are ASCII tickers; `Char.toUpper` is the basic-latin case map.) -/
def pyUpper (s : String) : String := String.mk (s.data.map Char.toUpper)

/-- Is the character a basic-latin lowercase letter?  (Used to state the
"symbol is uppercase" invariant.) -/
def isLowerAscii (c : Char) : Bool := decide (97 ≤ c.toNat) && decide (c.toNat ≤ 122)

/-- The cell-wise effect of `df['symbol'].str.upper()` (line 38): uppercase
a string cell; pandas' `.str` accessor yields missing for non-strings. -/
def upperValue : Value → Value
  | .strv s => .strv (pyUpper s)
  | _ => .nan

/-! ## The pagination aggregator (`get_top_500_pairs_by_volume`, lines 23-41) -/

/-- The query parameters of the upstream `coins/markets` request. -/
structure ReqParams where
  vs_currency : String
  order : String
  per_page : ℕ
  page : ℕ
deriving DecidableEq, Repr

/-- The parameter dict built for one page (lines 27-32). -/
def pageParams (page : ℕ) : ReqParams :=
  ⟨"usd", "volume_desc", 100, page⟩

/-- The loop body of lines 33-35: fetch one page (the value the retry loop
eventually returns: a record list, or `null` for `none`) and `extend` the
accumulator when the result is truthy (`if coins:`). -/
def aggPage (fetch : ReqParams → Option (List MarketRecord))
    (acc : List MarketRecord) (page : ℕ) : List MarketRecord :=
  match fetch (pageParams page) with
  | some coins => if coins.isEmpty then acc else acc ++ coins
  | none => acc

/-- `all_data` after the `for page in range(1, 6)` loop of lines 24-35. -/
def allData (fetch : ReqParams → Option (List MarketRecord)) : List MarketRecord :=
  (List.range' 1 5).foldl (aggPage fetch) []

/-- The records one page contributes to the final dataset. -/
def pageData (fetch : ReqParams → Option (List MarketRecord)) (page : ℕ) :
    List MarketRecord :=
  (fetch (pageParams page)).getD []

/-- Lines 38-39 on a non-empty frame: uppercase the symbol column and rename
`total_volume` to the display label. -/
def normalizeDF (df : DF) : DF :=
  let df1 := df.mapCol "symbol" upperValue
  ⟨df1.cols.map (fun c => if c = "total_volume" then "Total Volume in USD" else c), df1.rows⟩

/-- `get_top_500_pairs_by_volume()` (lines 23-41).  When every page was
empty, `pd.DataFrame([])` has no columns and `df['symbol']` at line 38
raises `KeyError`, modelled as the `Except.error`. -/
def get_top_500_pairs_by_volume (fetch : ReqParams → Option (List MarketRecord)) :
    Except String DF :=
  if (allData fetch).isEmpty then .error "KeyError: symbol"
  else .ok (normalizeDF ⟨rawCols, (allData fetch).map MarketRecord.toRow⟩)

/-- Column names after normalization: `rawCols` with the volume label
renamed. -/
def normCols : List String :=
  ["symbol", "current_price", "market_cap", "Total Volume in USD",
   "price_change_percentage_24h", "ath_date", "atl_date"]

/-- A record's row after normalization: symbol uppercased, other cells
untouched. -/
def normRow (r : MarketRecord) : List Value :=
  [.strv (pyUpper r.symbol), r.current_price, r.market_cap, r.total_volume,
   r.price_change_percentage_24h, .strv r.ath_date, .strv r.atl_date]

/-! ## Column selection (lines 52-73) -/

/-- The display-candidate column list of lines 56-62. -/
def columns_to_display_full : List String :=
  ["symbol", "current_price", "market_cap", "market_cap_rank", "fully_diluted_valuation",
   "Total Volume in USD", "high_24h", "low_24h", "price_change_24h",
   "price_change_percentage_24h", "market_cap_change_24h", "market_cap_change_percentage_24h",
   "circulating_supply", "total_supply", "max_supply", "ath", "ath_change_percentage",
   "ath_date", "atl", "atl_change_percentage", "atl_date"]

/-- Line 65: the candidate list filtered to the columns actually present in
the fetched frame. -/
def columns_to_display (available : List String) : List String :=
  columns_to_display_full.filter fun c => available.contains c

/-! ## Date normalization (lines 79-80) -/

/-- `pd.to_datetime(x, errors='coerce')` on one cell, parameterized by
pandas' date-string parser `parse` (library code, abstracted here): a string
cell parses to its date or coerces to the NaT marker — never raising; a cell
that is already a date passes through; missing cells coerce to NaT.  (The
date columns of this pipeline hold only strings or already-converted
values.) -/
def to_datetime_coerce (parse : String → Option (ℕ × ℕ × ℕ)) : Value → Value
  | .strv s =>
    match parse s with
    | some (y, m, d) => .dateV y m d
    | none => .natV
  | .dateV y m d => .dateV y m d
  | _ => .natV

/-- Lines 79-80: coerce the two date columns of the frame. -/
def convertDates (parse : String → Option (ℕ × ℕ × ℕ)) (df : DF) : DF :=
  (df.mapCol "ath_date" (to_datetime_coerce parse)).mapCol "atl_date" (to_datetime_coerce parse)

/-! ## Styling and export (lines 100-137) -/

/-- Columns formatted with `price_format` (lines 106-110). -/
def priceCols : List String := ["current_price", "high_24h", "low_24h", "ath", "atl"]

/-- Columns formatted `'{:,.2f}'` (lines 111-114, 116, 120-122). -/
def comma2Cols : List String :=
  ["market_cap", "fully_diluted_valuation", "Total Volume in USD", "price_change_24h",
   "market_cap_change_24h", "circulating_supply", "total_supply", "max_supply"]

/-- Columns formatted `'{:,.2f}%'` (lines 115, 117-119). -/
def pctCols : List String :=
  ["price_change_percentage_24h", "market_cap_change_percentage_24h",
   "ath_change_percentage", "atl_change_percentage"]

/-- Columns formatted by the date lambdas (lines 123-124). -/
def dateColsFmt : List String := ["ath_date", "atl_date"]

/-- `x.strftime('%Y-%m-%d')`. -/
def strftimeYMD (y m d : ℕ) : String :=
  padZeros 4 (natStr y) ++ "-" ++ padZeros 2 (natStr m) ++ "-" ++ padZeros 2 (natStr d)

/-- The date-column lambda of lines 123-124:
`x.strftime('%Y-%m-%d') if pd.notnull(x) else '-'`; `pd.notnull` is false on
NaT (and NaN), which yields the `-` placeholder. -/
def dateFmt : Value → String
  | .dateV y m d => strftimeYMD y m d
  | _ => "-"

/-- Digits after the decimal point of the fraction `n/den` (with `n < den`),
with no trailing zeros, fuel-bounded: how Python prints the fractional part
of a float (exact for the decimally-finite values evaluated here). -/
def fracDigitsND : ℕ → ℕ → ℕ → List Char
  | 0, _, _ => []
  | fuel+1, n, den =>
    if n = 0 then []
    else digitChar ((n * 10) / den) :: fracDigitsND fuel ((n * 10) % den) den

/-- Python float → string as pandas' `to_csv` writes a float cell: minimal
decimal digits, always at least one fractional digit, no separators. -/
def rawRenderQ (q : ℚ) : String :=
  let ip := q.num.natAbs / q.den
  let frac := q.num.natAbs % q.den
  let ds := fracDigitsND 17 frac q.den
  (if q < 0 then "-" else "") ++ natStr ip ++ "." ++ (if ds.isEmpty then "0" else String.mk ds)

/-- Raw cell rendering in the CSV export: floats full precision, NaN/NaT as
pandas' empty field, strings verbatim, dates as YYYY-MM-DD. -/
def rawRender : Value → String
  | .num q => rawRenderQ q
  | .nan => ""
  | .strv s => s
  | .dateV y m d => strftimeYMD y m d
  | .natV => ""

/-- The per-column display formatter registered by
`pairs_df.style.format({...})` (lines 105-124): price columns through
`price_format`, percentage columns 2 decimals plus `%`, plain magnitude
columns 2 decimals, date columns through the date lambda, all other columns
(e.g. `symbol`) rendered as-is. -/
def fmtCell (c : String) (v : Value) : String :=
  if c ∈ priceCols then price_format v
  else if c ∈ pctCols then commaFmt 2 v ++ "%"
  else if c ∈ comma2Cols then commaFmt 2 v
  else if c ∈ dateColsFmt then dateFmt v
  else rawRender v

/-- The cell strings of `styled_df` as displayed by `st.dataframe` (lines
105-130): the underlying frame is untouched, each cell is formatted per its
column. -/
def styled_df (df : DF) : List (List String) :=
  df.rows.map fun row => (df.cols.zip row).map fun p => fmtCell p.1 p.2

/-- `pairs_df.to_csv(index=False)` (line 133): a header row of the current
column names, then one line per row of raw (display-unformatted) values,
comma-delimited, with no index column. -/
def to_csv (df : DF) : String :=
  String.intercalate "," df.cols ++ "\n"
    ++ String.join (df.rows.map fun row => String.intercalate "," (row.map rawRender) ++ "\n")

/-- What the script puts on the page after the fetch: a styled table plus a
CSV download (lines 129-134), or the error message of line 137. -/
inductive RenderOut where
  | table (styledRows : List (List String)) (csv : String)
  | errorMsg (msg : String)
deriving DecidableEq, Repr

/-- Lines 78-137 after the cached fetch: coerce the date columns (lines
79-80); then for a non-empty frame restrict to the selected columns when the
selection is non-empty (`if selected_columns:`, lines 101-102), display the
styled frame and export the raw CSV; for an empty frame show the error
message. -/
def scriptBody (parse : String → Option (ℕ × ℕ × ℕ)) (df0 : DF) (selected : List String) :
    RenderOut :=
  let dfd := convertDates parse df0
  if dfd.rows.isEmpty then .errorMsg "No data available to display."
  else
    let dfs := if selected.isEmpty then dfd else dfd.select selected
    .table (styled_df dfs) (to_csv dfs)

/-- One whole script run (lines 44-137): the fetch-and-normalize cycle
followed by the display logic.  A `KeyError` raised inside
`get_top_500_pairs_by_volume` propagates as an uncaught exception
(`Except.error`). -/
def runApp (fetch : ReqParams → Option (List MarketRecord))
    (parse : String → Option (ℕ × ℕ × ℕ)) (selected : List String) :
    Except String RenderOut :=
  match get_top_500_pairs_by_volume fetch with
  | .error e => .error e
  | .ok df0 => .ok (scriptBody parse df0 selected)

/-! ## The cache (`@st.cache_data(ttl=86400)`, lines 43-46) -/

/-- Modelled from the spec: the body of streamlit's `st.cache_data`
decorator (library code, not part of this repository) applied with
`ttl=86400` to `fetch_and_display_data` (lines 44-46).  Per spec §4.4, on
first call, or when the stored entry's age exceeds 24 hours (86400 s),
`get_or_fetch` performs a full fetch+aggregate+normalize cycle (`cycle`) and
stores the result with the current timestamp; otherwise it returns the
stored dataset unchanged.  The result is (returned dataset, new cache state,
number of upstream cycles performed by this call). -/
def get_or_fetch (cycle : ℕ → DF) (now : ℕ) (s : Option (DF × ℕ)) :
    DF × Option (DF × ℕ) × ℕ :=
  match s with
  | some (d, t) =>
    if 86400 < now - t then (cycle now, some (cycle now, now), 1) else (d, s, 0)
  | none => (cycle now, some (cycle now, now), 1)

/-! ## Concrete data used by the witnesses -/

/-- A sample upstream record tagged with its page number. -/
def baseRec (page : ℕ) : MarketRecord :=
  ⟨"c" ++ natStr page, .num 1, .num 2, .num 3, .num 4, "2021-01-01", "2021-01-02"⟩

/-- Mock upstream for C2: every page yields 100 records. -/
def mockFull : ReqParams → Option (List MarketRecord) :=
  fun p => some (List.replicate 100 (baseRec p.page))

/-- Mock upstream for C2: page 3 yields the empty list, the others 100
records each. -/
def mockEmpty3 : ReqParams → Option (List MarketRecord) :=
  fun p => if p.page = 3 then some [] else some (List.replicate 100 (baseRec p.page))

/-- Mock upstream: one record per page. -/
def mockOne : ReqParams → Option (List MarketRecord) :=
  fun p => some [baseRec p.page]

/-- The frame `mockOne` aggregates to. -/
def dfOne : DF :=
  ⟨normCols, [normRow (baseRec 1), normRow (baseRec 2), normRow (baseRec 3),
    normRow (baseRec 4), normRow (baseRec 5)]⟩

/-- A record with a lowercase symbol and an unparseable all-time-low date. -/
def btcRec : MarketRecord :=
  ⟨"btc", .num 1, .num 2, .num 3, .num 4, "2021-01-01", "bad-date"⟩

/-- Mock upstream for C6: page 1 holds one record, the other pages return
`null`. -/
def mockBtc : ReqParams → Option (List MarketRecord) :=
  fun p => if p.page = 1 then some [btcRec] else none

/-- The frame `mockBtc` aggregates to. -/
def dfBtc : DF := ⟨normCols, [normRow btcRec]⟩

/-- A date parser that fails on every input (all claims about coercion only
need the failing case; the parser is abstract elsewhere). -/
def parseNone : String → Option (ℕ × ℕ × ℕ) := fun _ => none

/-- The C8 sample record: price 1234.5, percentage change 12.345. -/
def rec8 : MarketRecord :=
  ⟨"btc", .num (mkRat 2469 2), .num 2, .num 3, .num (mkRat 2469 200),
   "2021-01-01", "2021-01-01"⟩

/-- The normalized frame holding `rec8`. -/
def df8 : DF := ⟨normCols, [normRow rec8]⟩

/-- The C8 column selection. -/
def sel8 : List String := ["current_price", "price_change_percentage_24h"]

/-! ## Theorems -/

theorem price_format_eq_commaFmt (val : Value) :
    price_format val = commaFmt (price_decimals val) val := by
  unfold price_format price_decimals
  split_ifs <;> rfl

theorem mkRat_lt_iff (n : ℕ) (q : ℚ) :
    (fgt (.num q) (mkRat 1 n) = true) ↔ 1 / (n : ℚ) < q := by
  rw [fgt, decide_eq_true_eq, Rat.mkRat_eq_divInt, Rat.divInt_eq_div]
  norm_num

set_option maxHeartbeats 2000000 in
/-- C1: `price_format` selects its decimal precision exactly per the spec's
magnitude table: 2 decimals for `v > 0.1`, 4 for `0.01 < v ≤ 0.1`, 6 for
`0.0001 < v ≤ 0.01`, 8 for `0.000001 < v ≤ 0.0001`, 10 for
`0.00000001 < v ≤ 0.000001`, 12 for `0.0000000001 < v ≤ 0.00000001`, and 15
for `v ≤ 0.0000000001` — each threshold value itself falling into the
higher-precision branch — and then formats with thousands separators at that
precision. -/
theorem price_format_follows_spec_table (q : ℚ) :
    price_decimals (.num q) = spec_price_decimals q ∧
    price_format (.num q) = commaFmt (spec_price_decimals q) (.num q) := by
  have hd : price_decimals (.num q) = spec_price_decimals q := by
    unfold price_decimals spec_price_decimals
    simp only [mkRat_lt_iff]
    push_cast
    split_ifs <;> first | rfl | linarith
  exact ⟨hd, by rw [price_format_eq_commaFmt, hd]⟩

/-- C9: on the float NaN every magnitude comparison is false, so
`price_format` falls through to the 15-decimal `else` branch and renders
`"nan"` — not the `"-"` placeholder used for missing dates and not the
rendering of zero. -/
theorem price_format_nan :
    price_decimals Value.nan = 15 ∧
    price_format Value.nan = "nan" ∧
    price_format Value.nan ≠ "-" ∧
    price_format Value.nan ≠ price_format (.num 0) := by
  refine ⟨rfl, rfl, by decide, ?_⟩
  have h0 : price_format (.num 0) = "0.000000000000000" := by decide
  rw [h0]; decide

theorem fetchRun_stops_at_success {α : Type} [Inhabited α] (attempts : ℕ → Attempt α) :
    ∀ (k i fuel : ℕ), (∀ j, j < k → isOk (attempts (i + j)) = false) →
      isOk (attempts (i + k)) = true → k < fuel →
      fetchRun attempts fuel i =
        some (bodyOf (attempts (i + k)), (List.range k).map (fun j => warnOf (attempts (i + j))),
          10 * k) := by
  intro k
  induction k with
  | zero =>
    intro i fuel _ hk hfuel
    obtain ⟨fuel, rfl⟩ : ∃ f, fuel = f + 1 := ⟨fuel - 1, by omega⟩
    rw [fetchRun]
    rcases ha : attempts i with ⟨s, b⟩ | _
    · rw [Nat.add_zero, ha, isOk] at hk
      simp only [beq_iff_eq] at hk
      simp [hk, ha, bodyOf]
    · rw [Nat.add_zero, ha, isOk] at hk
      exact absurd hk (by simp)
  | succ k ih =>
    intro i fuel hpre hk hfuel
    obtain ⟨fuel, rfl⟩ : ∃ f, fuel = f + 1 := ⟨fuel - 1, by omega⟩
    have h0 : isOk (attempts i) = false := by
      have := hpre 0 (Nat.succ_pos k)
      rwa [Nat.add_zero] at this
    have hrec : fetchRun attempts fuel (i + 1) =
        some (bodyOf (attempts (i + 1 + k)),
          (List.range k).map (fun j => warnOf (attempts (i + 1 + j))), 10 * k) := by
      apply ih
      · intro j hj
        have := hpre (j + 1) (by omega)
        rwa [show i + (j + 1) = i + 1 + j by omega] at this
      · rwa [show i + 1 + k = i + (k + 1) by omega]
      · omega
    have hlist : (List.range (k + 1)).map (fun j => warnOf (attempts (i + j)))
        = warnOf (attempts i) :: (List.range k).map (fun j => warnOf (attempts (i + 1 + j))) := by
      rw [List.range_succ_eq_map, List.map_cons, List.map_map]
      refine congrArg₂ _ (by rw [Nat.add_zero]) (List.map_congr_left fun j _ => ?_)
      simp only [Function.comp_apply]
      rw [show i + (j + 1) = i + 1 + j by omega]
    rw [fetchRun]
    rcases ha : attempts i with ⟨s, b⟩ | _
    · have hs : s ≠ 200 := by
        rw [ha, isOk] at h0
        simpa using h0
      rw [show i + (k + 1) = i + 1 + k by omega, show 10 * (k + 1) = 10 * k + 10 by omega,
        hlist, ha]
      simp only [hs, if_false, hrec, warnOf]
      rfl
    · rw [show i + (k + 1) = i + 1 + k by omega, show 10 * (k + 1) = 10 * k + 10 by omega,
        hlist, ha]
      simp only [hrec, warnOf]
      rfl

theorem fetchRun_never_returns {α : Type} [Inhabited α] (attempts : ℕ → Attempt α)
    (hall : ∀ j, isOk (attempts j) = false) :
    ∀ (fuel i : ℕ), fetchRun attempts fuel i = none := by
  intro fuel
  induction fuel with
  | zero => intro i; rfl
  | succ fuel ih =>
    intro i
    rw [fetchRun]
    rcases ha : attempts i with ⟨s, b⟩ | _
    · have hs : s ≠ 200 := by
        have := hall i
        rw [ha, isOk] at this
        simpa using this
      simp [hs, ih]
    · simp [ih]

/-- C3: the fetcher returns the parsed body of the first attempt with HTTP
status 200, having emitted one warning and one 10-second sleep per earlier
failed attempt (non-200 status or connection error), with no retry bound;
and when no attempt ever returns status 200 it never returns at all — no
failure is propagated as a hard error. -/
theorem fetcher_retries_until_200 :
    (∀ (α : Type) (_inst : Inhabited α) (attempts : ℕ → Attempt α) (k : ℕ),
      (∀ j, j < k → isOk (attempts j) = false) → isOk (attempts k) = true →
      ∀ fuel, k < fuel →
        fetch_data_continuously attempts fuel =
          some (bodyOf (attempts k), warnPre attempts k, 10 * k)) ∧
    (∀ (α : Type) (_inst : Inhabited α) (attempts : ℕ → Attempt α),
      (∀ j, isOk (attempts j) = false) →
      ∀ fuel, fetch_data_continuously attempts fuel = none) := by
  constructor
  · intro α inst attempts k hpre hk fuel hfuel
    have := fetchRun_stops_at_success attempts k 0 fuel
      (by intro j hj; rw [Nat.zero_add]; exact hpre j hj)
      (by rwa [Nat.zero_add]) hfuel
    rw [fetch_data_continuously, this]
    simp [warnPre]
  · intro α inst attempts hall fuel
    exact fetchRun_never_returns attempts hall fuel 0

theorem fetcher_retries_until_200_witness :
    fetch_data_continuously attemptsW 5 = some (42, [.connIssue, .apiError 500], 20) ∧
    fetch_data_continuously (fun _ => (Attempt.exn : Attempt ℕ)) 5 = none := by
  constructor
  · have := fetcher_retries_until_200.1 ℕ inferInstance attemptsW 2
      (by decide) (by decide) 5 (by decide)
    simpa [attemptsW, warnPre, bodyOf] using this
  · exact fetcher_retries_until_200.2 ℕ inferInstance (fun _ => Attempt.exn)
      (fun _ => rfl) 5

theorem aggPage_eq_append (fetch : ReqParams → Option (List MarketRecord))
    (acc : List MarketRecord) (page : ℕ) :
    aggPage fetch acc page = acc ++ pageData fetch page := by
  rw [aggPage, pageData]
  rcases fetch (pageParams page) with _ | coins
  · simp
  · rcases coins with _ | ⟨c, coins⟩
    · simp [List.isEmpty]
    · simp [List.isEmpty]

theorem allData_eq_concat (fetch : ReqParams → Option (List MarketRecord)) :
    allData fetch = pageData fetch 1 ++ pageData fetch 2 ++ pageData fetch 3
      ++ pageData fetch 4 ++ pageData fetch 5 := by
  rw [allData, show List.range' 1 5 = [1, 2, 3, 4, 5] from rfl]
  simp only [List.foldl_cons, List.foldl_nil, aggPage_eq_append]
  simp

theorem normalizeDF_raw (l : List MarketRecord) :
    normalizeDF ⟨rawCols, l.map MarketRecord.toRow⟩ = ⟨normCols, l.map normRow⟩ := by
  rw [normalizeDF, DF.mapCol]
  rw [show rawCols.findIdx? (fun x => x = "symbol") = some 0 from rfl]
  simp only [List.map_map]
  refine congrArg₂ DF.mk rfl (List.map_congr_left fun r _ => ?_)
  rfl

theorem get_top_500_ok (fetch : ReqParams → Option (List MarketRecord)) (df : DF)
    (h : get_top_500_pairs_by_volume fetch = .ok df) :
    df = ⟨normCols, (allData fetch).map normRow⟩ ∧ ¬(allData fetch).isEmpty := by
  rw [get_top_500_pairs_by_volume] at h
  split_ifs at h with he
  rw [normalizeDF_raw] at h
  injection h with h
  exact ⟨h.symm, he⟩

set_option maxRecDepth 16384 in
/-- C2: the aggregator consults the fetcher exactly at pages 1 through 5,
each with `per_page = 100` and `order = volume_desc`, and the resulting rows
are the concatenation of the page results in page-then-within-page order
(normalized row-wise); a page yielding no data contributes zero records
without aborting, so five full pages of 100 give exactly 500 records and one
empty page among five gives exactly 400. -/
theorem aggregator_concatenates_pages :
    (∀ fetch df, get_top_500_pairs_by_volume fetch = .ok df →
      df.rows = (pageData fetch 1 ++ pageData fetch 2 ++ pageData fetch 3
        ++ pageData fetch 4 ++ pageData fetch 5).map normRow) ∧
    (∀ page, pageParams page = ⟨"usd", "volume_desc", 100, page⟩) ∧
    (get_top_500_pairs_by_volume mockFull).toOption.map (fun df => df.rows.length)
      = some 500 ∧
    (get_top_500_pairs_by_volume mockEmpty3).toOption.map (fun df => df.rows.length)
      = some 400 := by
  refine ⟨?_, fun _ => rfl, by decide, by decide⟩
  intro fetch df h
  obtain ⟨hdf, -⟩ := get_top_500_ok fetch df h
  rw [hdf, ← allData_eq_concat]

theorem aggregator_concatenates_pages_witness :
    dfOne.rows = (pageData mockOne 1 ++ pageData mockOne 2 ++ pageData mockOne 3
      ++ pageData mockOne 4 ++ pageData mockOne 5).map normRow :=
  aggregator_concatenates_pages.1 mockOne dfOne rfl

/-- C4 (code bug): when every page contributes zero records the spec's
intended user-visible error state (`st.error`, line 137 — present in
`scriptBody`) is never reached: `pd.DataFrame([])` has no columns, so
`df['symbol']` at line 38 raises an uncaught `KeyError` and the run aborts
with an exception instead. -/
theorem empty_dataset_uncaught_keyerror :
    ∀ (parse : String → Option (ℕ × ℕ × ℕ)) (selected : List String),
      runApp (fun _ => some []) parse selected = .error "KeyError: symbol" :=
  fun _ _ => rfl

theorem toUpper_shape (c : Char) :
    Char.toUpper c
      = if c.toNat ≥ 97 ∧ c.toNat ≤ 122 then Char.ofNat (c.toNat - 32) else c := rfl

theorem ofNat_sub32_not_lower (n : ℕ) (h1 : 97 ≤ n) (h2 : n ≤ 122) :
    isLowerAscii (Char.ofNat (n - 32)) = false := by
  interval_cases n <;> decide

theorem toUpper_not_lower (c : Char) : isLowerAscii (Char.toUpper c) = false := by
  rw [toUpper_shape]
  split
  · next h => exact ofNat_sub32_not_lower _ h.1 h.2
  · next h =>
    simp only [isLowerAscii, Bool.and_eq_false_iff, decide_eq_false_iff_not]
    omega

theorem pyUpper_no_lower (s : String) :
    ∀ c ∈ (pyUpper s).data, isLowerAscii c = false := by
  intro c hc
  obtain ⟨c', _, rfl⟩ := List.mem_map.mp hc
  exact toUpper_not_lower c'

/-- C6: every frame the pipeline produces has its symbol column uppercased
(no basic-latin lowercase letters survive normalization) and exposes the raw
total-volume field under the `Total Volume in USD` label — present in the
stored columns, with the raw name gone, and matching the display candidate
list — for every dataset the pipeline produces. -/
theorem normalization_uppercases_and_renames :
    ∀ fetch df, get_top_500_pairs_by_volume fetch = .ok df →
      df.cols = normCols ∧
      "Total Volume in USD" ∈ df.cols ∧
      "total_volume" ∉ df.cols ∧
      "Total Volume in USD" ∈ columns_to_display df.cols ∧
      ∀ row ∈ df.rows, ∃ r : MarketRecord, row = normRow r ∧
        row.getD 0 .nan = .strv (pyUpper r.symbol) ∧
        ∀ c ∈ (pyUpper r.symbol).data, isLowerAscii c = false := by
  intro fetch df h
  obtain ⟨hdf, -⟩ := get_top_500_ok fetch df h
  have hcols : df.cols = normCols := by rw [hdf]
  refine ⟨hcols, ?_, ?_, ?_, ?_⟩
  · rw [hcols]; decide
  · rw [hcols]; decide
  · rw [hcols]; decide
  · intro row hrow
    rw [hdf] at hrow
    obtain ⟨r, _, rfl⟩ := List.mem_map.mp hrow
    exact ⟨r, rfl, rfl, pyUpper_no_lower r.symbol⟩

theorem normalization_uppercases_and_renames_witness :
    (dfBtc.cols = normCols ∧
      "Total Volume in USD" ∈ dfBtc.cols ∧
      "total_volume" ∉ dfBtc.cols ∧
      "Total Volume in USD" ∈ columns_to_display dfBtc.cols ∧
      ∀ row ∈ dfBtc.rows, ∃ r : MarketRecord, row = normRow r ∧
        row.getD 0 .nan = .strv (pyUpper r.symbol) ∧
        ∀ c ∈ (pyUpper r.symbol).data, isLowerAscii c = false) ∧
    (normRow btcRec).getD 0 .nan = .strv "BTC" :=
  ⟨normalization_uppercases_and_renames mockBtc dfBtc rfl, by decide⟩

/-- C5: date normalization turns an unparseable date string into the NaT
missing marker (never raising — `to_datetime_coerce` is total), parses a
parseable one into a structured date, applies this to the `ath_date` and
`atl_date` field of every record, and the display formatter renders the
missing marker as `"-"`. -/
theorem dates_coerce_and_render_dash :
    ∀ (parse : String → Option (ℕ × ℕ × ℕ)) (s : String),
      (parse s = none → to_datetime_coerce parse (.strv s) = .natV) ∧
      (∀ y m d, parse s = some (y, m, d) → to_datetime_coerce parse (.strv s) = .dateV y m d) ∧
      fmtCell "ath_date" Value.natV = "-" ∧
      fmtCell "atl_date" Value.natV = "-" ∧
      (∀ r : MarketRecord,
        (convertDates parse ⟨normCols, [normRow r]⟩).rows
          = [[.strv (pyUpper r.symbol), r.current_price, r.market_cap, r.total_volume,
              r.price_change_percentage_24h, to_datetime_coerce parse (.strv r.ath_date),
              to_datetime_coerce parse (.strv r.atl_date)]]) := by
  intro parse s
  refine ⟨fun h => ?_, fun y m d h => ?_, by decide, by decide, fun r => rfl⟩
  · rw [to_datetime_coerce, h]
  · rw [to_datetime_coerce, h]

theorem dates_coerce_and_render_dash_witness :
    to_datetime_coerce parseNone (.strv "not-a-date") = .natV ∧
    fmtCell "ath_date" Value.natV = "-" :=
  ⟨(dates_coerce_and_render_dash parseNone "not-a-date").1 rfl,
   (dates_coerce_and_render_dash parseNone "not-a-date").2.2.1⟩

/-- C7 (spec-modelled cache): the first call performs one upstream cycle and
stores the dataset with its timestamp; a second call while the entry's age
is within 24 hours performs no cycle and returns the stored dataset and
state unchanged; a call once the age exceeds 24 hours performs a second
cycle. -/
theorem cache_one_cycle_per_ttl :
    ∀ (cycle : ℕ → DF) (t0 t1 t2 : ℕ), t0 ≤ t1 → t1 - t0 ≤ 86400 → 86400 < t2 - t0 →
      (get_or_fetch cycle t0 none).2.2 = 1 ∧
      (get_or_fetch cycle t0 none).2.1 = some (cycle t0, t0) ∧
      get_or_fetch cycle t1 (get_or_fetch cycle t0 none).2.1
        = (cycle t0, some (cycle t0, t0), 0) ∧
      (get_or_fetch cycle t2
        (get_or_fetch cycle t1 (get_or_fetch cycle t0 none).2.1).2.1).2.2 = 1 := by
  intro cycle t0 t1 t2 h01 hle hgt
  have h1 : get_or_fetch cycle t0 none = (cycle t0, some (cycle t0, t0), 1) := rfl
  have h2 : get_or_fetch cycle t1 (some (cycle t0, t0))
      = (cycle t0, some (cycle t0, t0), 0) := by
    rw [get_or_fetch]
    rw [if_neg (by omega)]
  have h3 : (get_or_fetch cycle t2 (some (cycle t0, t0))).2.2 = 1 := by
    rw [get_or_fetch]
    rw [if_pos (by omega)]
  rw [h1, h2]
  exact ⟨rfl, rfl, rfl, h3⟩

theorem cache_one_cycle_per_ttl_witness :
    (get_or_fetch (fun _ => dfBtc) 0 none).2.2 = 1 ∧
    (get_or_fetch (fun _ => dfBtc) 0 none).2.1 = some (dfBtc, 0) ∧
    get_or_fetch (fun _ => dfBtc) 1000 (get_or_fetch (fun _ => dfBtc) 0 none).2.1
      = (dfBtc, some (dfBtc, 0), 0) ∧
    (get_or_fetch (fun _ => dfBtc) 100000
      (get_or_fetch (fun _ => dfBtc) 1000
        (get_or_fetch (fun _ => dfBtc) 0 none).2.1).2.1).2.2 = 1 :=
  cache_one_cycle_per_ttl (fun _ => dfBtc) 0 1000 100000 (by decide) (by decide) (by decide)

/-- C8: display formatting does not touch the exported data: for the sample
frame with price 1234.5 and percentage 12.345, the CSV produced alongside
the styled table consists of the post-selection header and the raw values
`1234.5` and `12.345` with no index column — while the very same cells are
displayed as `1,234.50` and `12.34%` in the styled table. -/
theorem csv_exports_raw_values :
    scriptBody parseNone df8 sel8
      = .table [["1,234.50", "12.34%"]]
          "current_price,price_change_percentage_24h\n1234.5,12.345\n" ∧
    price_format (.num (mkRat 2469 2)) = "1,234.50" ∧
    rawRender (.num (mkRat 2469 2)) = "1234.5" ∧
    rawRender (.num (mkRat 2469 200)) = "12.345" := by
  refine ⟨by decide, by decide, by decide, by decide⟩

theorem DF.mapCol_cols (df : DF) (c : String) (f : Value → Value) :
    (df.mapCol c f).cols = df.cols := by
  rw [DF.mapCol]
  split <;> rfl

theorem DF.mapCol_rows_length (df : DF) (c : String) (f : Value → Value) :
    (df.mapCol c f).rows.length = df.rows.length := by
  rw [DF.mapCol]
  split
  · exact List.length_map _ _
  · rfl

theorem convertDates_cols (parse : String → Option (ℕ × ℕ × ℕ)) (df : DF) :
    (convertDates parse df).cols = df.cols := by
  rw [convertDates, DF.mapCol_cols, DF.mapCol_cols]

/-- C10: an empty column selection leaves the frame entirely unfiltered —
the styled table and the exported CSV are built from the full frame, whose
columns are exactly the fetched ones — while a non-empty selection restricts
both the displayed table and the CSV to exactly the selected columns in
selection order. -/
theorem empty_selection_keeps_all_columns :
    ∀ (parse : String → Option (ℕ × ℕ × ℕ)) (df0 : DF) (sel : List String),
      (convertDates parse df0).rows ≠ [] →
      (convertDates parse df0).cols = df0.cols ∧
      (sel = [] → scriptBody parse df0 sel
        = .table (styled_df (convertDates parse df0)) (to_csv (convertDates parse df0))) ∧
      (sel ≠ [] →
        scriptBody parse df0 sel
          = .table (styled_df ((convertDates parse df0).select sel))
              (to_csv ((convertDates parse df0).select sel)) ∧
        ((convertDates parse df0).select sel).cols = sel) := by
  intro parse df0 sel hne
  have hempty : (convertDates parse df0).rows.isEmpty = false := by
    rcases hl : (convertDates parse df0).rows with _ | _
    · exact absurd hl hne
    · rfl
  refine ⟨convertDates_cols parse df0, fun hsel => ?_, fun hsel => ?_⟩
  · subst hsel
    rw [scriptBody]
    simp [hempty]
  · have hselE : sel.isEmpty = false := by
      rcases sel with _ | _
      · exact absurd rfl hsel
      · rfl
    rw [scriptBody]
    simp [hempty, hselE, DF.select]

theorem empty_selection_keeps_all_columns_witness :
    (convertDates parseNone df8).rows ≠ [] ∧
    scriptBody parseNone df8 []
      = .table (styled_df (convertDates parseNone df8)) (to_csv (convertDates parseNone df8)) :=
  ⟨by decide, (empty_selection_keeps_all_columns parseNone df8 [] (by decide)).2.1 rfl⟩

end Coingekco
